import Mathlib

/-!
Shallow embedding of the `stack-future` crate, a bounded-size, type-erased
asynchronous task container.

Sources embedded:
* `src/stack_future.rs` — the fixed-capacity family: `StackFutureImpl`,
  `LocalStackFuture`, `StackFuture` (the Send wrapper), `CreateError`.
* `src/lib.rs` — the earlier revision of the fixed-capacity container
  (here named `LibStackFuture`, since its Rust name `StackFuture` clashes
  with the one from `stack_future.rs`).
* `src/small_future.rs` — the adaptive family: `HeapBuffer`,
  `SmallFutureState`, `SmallFutureSendState` and their `poll`/`Drop` code.

Modelling conventions:
* A concrete future type `F` together with one live value of it is a
  `ConcreteFuture T`: `size`/`align` are `size_of::<F>()`/`align_of::<F>()`,
  and its cooperative behaviour is the deterministic single-output task
  that answers `Pending` a fixed number of times before `Ready output`.
* Type-erased storage is modelled by the live future value it currently
  holds (the typed view the vtable closures reconstruct from the raw
  pointer), plus the layout metadata the source tracks.
* Operations additionally emit an `Event` trace recording the effects the
  claims talk about: destructor runs (`drop_in_place` and the implicit
  drop of a consumed-but-rejected constructor argument), zero-filling,
  the `ptr::write` move into storage, and heap allocation/deallocation
  with their layouts.
-/

set_option linter.unusedVariables false

variable {T : Type}

/-- Result of one cooperative advance, `core::task::Poll<T>`. -/
inductive Poll (T : Type) where
  | pending : Poll T
  | ready : T → Poll T
deriving DecidableEq, Repr

/-- Size and alignment in bytes, `std::alloc::Layout`. -/
structure Layout where
  size : Nat
  align : Nat
deriving DecidableEq, Repr

/-- The value of `isize::MAX` on the 64-bit targets the crate targets. -/
def isizeMax : Nat := 2 ^ 63 - 1

/-- The `usize::is_power_of_two` test: exactly one set bit. -/
def isPowTwo (n : Nat) : Bool := n != 0 && Nat.land n (n - 1) == 0

/-- The `Layout::from_size_align` constructor: errors unless `align` is a
power of two and `size`, rounded up to a multiple of `align`, does not
overflow `isize`. -/
def Layout.fromSizeAlign (size align : Nat) : Option Layout :=
  if isPowTwo align = true ∧ size ≤ isizeMax - (align - 1) then
    some ⟨size, align⟩
  else
    none

/-- Observable storage and ownership effects emitted by the model. -/
inductive Event where
  | futureDropped
  | movedIntoStorage
  | zeroFilled
  | heapAlloc (layout : Layout)
  | heapDealloc (layout : Layout)
deriving DecidableEq, Repr

/-- One concrete future type `F` together with a live value of it.
`size` and `align` are `size_of::<F>()` and `align_of::<F>()`; the
behaviour is the deterministic single-output cooperative task that
returns `Pending` for `pending` polls and then `Ready output`. -/
structure ConcreteFuture (T : Type) where
  size : Nat
  align : Nat
  pending : Nat
  output : T
deriving DecidableEq, Repr

/-- The concrete future's own `Future::poll`: one cooperative step. -/
def ConcreteFuture.poll (f : ConcreteFuture T) : ConcreteFuture T × Poll T :=
  match f.pending with
  | 0 => (f, Poll.ready f.output)
  | Nat.succ n => ({ f with pending := n }, Poll.pending)

/-- Polling the concrete future directly, at most `fuel` times, until it
produces its output. -/
def driveFuture : Nat → ConcreteFuture T → Option T
  | 0, _ => none
  | Nat.succ fuel, f =>
    match (ConcreteFuture.poll f).2 with
    | Poll.ready t => some t
    | Poll.pending => driveFuture fuel (ConcreteFuture.poll f).1

/-- The state of the concrete future itself after being polled directly at
most `fuel` times (stopping at the poll that produced `Ready`). -/
def driveFutureSt : Nat → ConcreteFuture T → ConcreteFuture T
  | 0, f => f
  | Nat.succ fuel, f =>
    match (ConcreteFuture.poll f).2 with
    | Poll.ready _ => (ConcreteFuture.poll f).1
    | Poll.pending => driveFutureSt fuel (ConcreteFuture.poll f).1

/-- The vtable for type-erased future operations (`struct VTable<T>` in
`lib.rs` and `small_future.rs`, `crate::VTable` in `stack_future.rs`):
`poll` drives the stored value one step through the reconstituted typed
reference, `drop` runs `ptr::drop_in_place::<F>` on it. -/
structure VTable (T : Type) where
  poll : ConcreteFuture T → ConcreteFuture T × Poll T
  drop : ConcreteFuture T → List Event

/-- The vtable the source builds for a concrete future type: its `poll`
closure reinterprets the pointer as `*mut F` and calls `F::poll`; its
`drop` closure runs `drop_in_place::<F>`, i.e. exactly one destructor
run on the stored value. -/
def VTable.forConcrete (T : Type) : VTable T where
  poll := ConcreteFuture.poll
  drop := fun _ => [Event.futureDropped]

/-- The alignment of `AlignedBuffer<N>`: `repr(align(8))` raises the byte
array's natural alignment of 1 to 8, for every `N`. -/
def alignedBufferAlignOf (N : Nat) : Nat := Nat.max 1 8

/-- Construction errors of the fixed-capacity family (`enum CreateError`,
identical variants and payloads in `lib.rs` and `stack_future.rs`). -/
inductive CreateError where
  | sizeTooLarge (size maxSize : Nat)
  | alignmentMismatch (alignment expected : Nat)
deriving DecidableEq, Repr

/-- The error component of a fallible construction result, if any. -/
def errOf {ε α : Type} : Except ε α → Option ε
  | Except.error e => some e
  | Except.ok _ => none

/-- Whether a fallible construction result is a success. -/
def isOkC {ε α : Type} : Except ε α → Bool
  | Except.error _ => false
  | Except.ok _ => true

/-- The struct `StackFutureImpl<'a, T, N>` of `stack_future.rs`: an aligned
`N`-byte buffer (modelled by the live future it holds), a vtable
reference, and a `PhantomPinned` marker (layout metadata only, see
`stackFutureImplIsUnpin`). -/
structure StackFutureImpl (T : Type) (N : Nat) where
  buffer : ConcreteFuture T
  vtable : VTable T

/-- The constructor `StackFutureImpl::new`: size check first, then the
alignment check, then build the vtable, zero-fill the buffer and
`ptr::write` the future into it.  The second component is the event
trace: on each error path Rust drops the owned `future` argument when
`new` returns, one destructor run; on success the argument was moved
into the buffer, so no destructor runs. -/
def StackFutureImpl.new (N : Nat) (future : ConcreteFuture T) :
    Except CreateError (StackFutureImpl T N) × List Event :=
  if future.size > N then
    (Except.error (CreateError.sizeTooLarge future.size N), [Event.futureDropped])
  else if future.align > alignedBufferAlignOf N then
    (Except.error (CreateError.alignmentMismatch future.align (alignedBufferAlignOf N)),
      [Event.futureDropped])
  else
    (Except.ok { buffer := future, vtable := VTable.forConcrete T },
      [Event.zeroFilled, Event.movedIntoStorage])

/-- The `Future::poll` impl for `StackFutureImpl`: dispatch through the
stored vtable on the buffer's pointer, writing the advanced state back
into the same storage. -/
def StackFutureImpl.poll {N : Nat} (s : StackFutureImpl T N) :
    StackFutureImpl T N × Poll T :=
  ({ s with buffer := (s.vtable.poll s.buffer).1 }, (s.vtable.poll s.buffer).2)

/-- The `Drop` impl for `StackFutureImpl`: `(self.vtable.drop)` on the
buffer's pointer. -/
def StackFutureImpl.drop {N : Nat} (s : StackFutureImpl T N) : List Event :=
  s.vtable.drop s.buffer

/-- The struct `LocalStackFuture<'a, T, N>`: `repr(transparent)` wrapper
around `StackFutureImpl` adding a `PhantomData<Rc<()>>` marker. -/
structure LocalStackFuture (T : Type) (N : Nat) where
  inner : StackFutureImpl T N

/-- The constructor `LocalStackFuture::new`: `StackFutureImpl::new(future)?`
wrapped in the transparent struct. -/
def LocalStackFuture.new (N : Nat) (future : ConcreteFuture T) :
    Except CreateError (LocalStackFuture T N) × List Event :=
  ((StackFutureImpl.new N future).1.map LocalStackFuture.mk,
    (StackFutureImpl.new N future).2)

/-- The `Future::poll` impl for `LocalStackFuture`: forwards to the pinned
inner `StackFutureImpl`. -/
def LocalStackFuture.poll {N : Nat} (s : LocalStackFuture T N) :
    LocalStackFuture T N × Poll T :=
  (⟨(StackFutureImpl.poll s.inner).1⟩, (StackFutureImpl.poll s.inner).2)

/-- The struct `StackFuture<'a, T, N>` of `stack_future.rs`: the Send
variant, a `repr(transparent)` wrapper around `StackFutureImpl`.  The
`Send` bound on its constructor is an ownership capability marker with
no operational content in this model. -/
structure StackFuture (T : Type) (N : Nat) where
  inner : StackFutureImpl T N

/-- The constructor `StackFuture::new` of `stack_future.rs`:
`StackFutureImpl::new(future)?` wrapped in the transparent struct. -/
def StackFuture.new (N : Nat) (future : ConcreteFuture T) :
    Except CreateError (StackFuture T N) × List Event :=
  ((StackFutureImpl.new N future).1.map StackFuture.mk,
    (StackFutureImpl.new N future).2)

/-- The `Future::poll` impl for `StackFuture` of `stack_future.rs`:
forwards to the pinned inner `StackFutureImpl`. -/
def StackFuture.poll {N : Nat} (s : StackFuture T N) : StackFuture T N × Poll T :=
  (⟨(StackFutureImpl.poll s.inner).1⟩, (StackFutureImpl.poll s.inner).2)

/-- The struct `StackFuture<'a, T, N>` of `lib.rs` (the earlier revision):
buffer plus vtable reference, with no `PhantomPinned` field. -/
structure LibStackFuture (T : Type) (N : Nat) where
  buffer : ConcreteFuture T
  vtable : VTable T

/-- The constructor `StackFuture::new` of `lib.rs`: the same size check
followed by alignment check (errors built through snafu carry the same
payloads), then vtable construction, zero-fill and `ptr::write`. -/
def LibStackFuture.new (N : Nat) (future : ConcreteFuture T) :
    Except CreateError (LibStackFuture T N) × List Event :=
  if future.size > N then
    (Except.error (CreateError.sizeTooLarge future.size N), [Event.futureDropped])
  else if future.align > alignedBufferAlignOf N then
    (Except.error (CreateError.alignmentMismatch future.align (alignedBufferAlignOf N)),
      [Event.futureDropped])
  else
    (Except.ok { buffer := future, vtable := VTable.forConcrete T },
      [Event.zeroFilled, Event.movedIntoStorage])

/-- The `Future::poll` impl of `lib.rs`'s `StackFuture`: obtains `&mut self`
via `Pin::get_mut` (possible because the type is `Unpin`) and dispatches
through the vtable. -/
def LibStackFuture.poll {N : Nat} (s : LibStackFuture T N) :
    LibStackFuture T N × Poll T :=
  ({ s with buffer := (s.vtable.poll s.buffer).1 }, (s.vtable.poll s.buffer).2)

/-- The `Drop` impl of `lib.rs`'s `StackFuture`: vtable `drop` on the
buffer's pointer. -/
def LibStackFuture.drop {N : Nat} (s : LibStackFuture T N) : List Event :=
  s.vtable.drop s.buffer

/-- The struct `HeapBuffer { ptr, layout }` of `small_future.rs`: the
pointee bytes are modelled by the live future they hold; the `Layout`
the block was allocated with is stored alongside the pointer, exactly
as in the source. -/
structure HeapBuffer (T : Type) where
  contents : ConcreteFuture T
  layout : Layout

/-- What the external allocator answered an allocation request with. -/
inductive AllocResult where
  | nullPtr
  | validBlock
deriving DecidableEq, Repr

/-- Outcome of `HeapBuffer::new::<F>` with the allocator's answer made
explicit: either a zero-filled block carrying its creation layout, or a
fatal panic (modelled as a non-returning terminal outcome; no error
value is ever handed back to the caller). -/
inductive HeapNewOutcome where
  | ok (layout : Layout) (zeroed : Bool)
  | fatalPanic (msg : String)
deriving DecidableEq, Repr

/-- The null check and zero-fill of `HeapBuffer::new`, after the layout has
been computed: a null pointer from `alloc` panics with the source's
message, a valid block is zero-filled (`ptr::write_bytes(ptr, 0, size)`)
and returned together with the layout it was created with. -/
def heapAllocStep (layout : Layout) (r : AllocResult) : HeapNewOutcome :=
  match r with
  | AllocResult.nullPtr => HeapNewOutcome.fatalPanic ("Heap allocation failed")
  | AllocResult.validBlock => HeapNewOutcome.ok layout true

/-- The whole of `HeapBuffer::new::<F>`, allocator answer made explicit:
`Layout::from_size_align(size_of::<F>(), align_of::<F>()).unwrap()`
(the `unwrap` of an `Err` panics), then `alloc(layout)`, null check,
zero-fill. -/
def heapBufferNewModel (size align : Nat) (r : AllocResult) : HeapNewOutcome :=
  match Layout.fromSizeAlign size align with
  | none => HeapNewOutcome.fatalPanic ("called `Result::unwrap()` on an `Err` value")
  | some layout => heapAllocStep layout r

/-- Which storage variant an adaptive container is in. -/
inductive StorageKind where
  | inline
  | heap
deriving DecidableEq, Repr

/-- The enum `SmallFutureState<'a, T, N>`: inline aligned buffer plus
vtable, or heap buffer plus vtable. -/
inductive SmallFutureState (T : Type) (N : Nat) where
  | inline (buffer : ConcreteFuture T) (vtable : VTable T)
  | heap (buffer : HeapBuffer T) (vtable : VTable T)

/-- The constructor `SmallFutureState::new`: if the future fits
(`size_of::<F>() <= N && align_of::<F>() <= align_of::<AlignedBuffer<N>>()`)
build the vtable, zero-fill the aligned buffer and `ptr::write` the
future in; otherwise build the vtable, `HeapBuffer::new::<F>()` — which
allocates with `F`'s exact layout and zero-fills (allocation success
case; the null-pointer case is `heapBufferNewModel`) — and `ptr::write`
the future into the heap block. -/
def SmallFutureState.new (N : Nat) (future : ConcreteFuture T) :
    SmallFutureState T N × List Event :=
  if future.size ≤ N ∧ future.align ≤ alignedBufferAlignOf N then
    (SmallFutureState.inline future (VTable.forConcrete T),
      [Event.zeroFilled, Event.movedIntoStorage])
  else
    (SmallFutureState.heap
        { contents := future, layout := ⟨future.size, future.align⟩ }
        (VTable.forConcrete T),
      [Event.heapAlloc ⟨future.size, future.align⟩, Event.zeroFilled,
        Event.movedIntoStorage])

/-- The `Future::poll` impl for `SmallFuture`: match on the storage
variant and dispatch through the vtable on that variant's pointer,
writing the advanced state back in place. -/
def SmallFutureState.poll {N : Nat} :
    SmallFutureState T N → SmallFutureState T N × Poll T
  | SmallFutureState.inline buffer vtable =>
    (SmallFutureState.inline (vtable.poll buffer).1 vtable, (vtable.poll buffer).2)
  | SmallFutureState.heap buffer vtable =>
    (SmallFutureState.heap { buffer with contents := (vtable.poll buffer.contents).1 }
      vtable, (vtable.poll buffer.contents).2)

/-- The `Drop` impl for `SmallFuture`: vtable `drop` on whichever storage
holds the value; for the heap variant the `HeapBuffer` field is then
dropped, deallocating with the stored layout (`dealloc(ptr, layout)`). -/
def SmallFutureState.drop {N : Nat} : SmallFutureState T N → List Event
  | SmallFutureState.inline buffer vtable => vtable.drop buffer
  | SmallFutureState.heap buffer vtable =>
    vtable.drop buffer.contents ++ [Event.heapDealloc buffer.layout]

/-- The storage variant of an adaptive container. -/
def SmallFutureState.kind {N : Nat} : SmallFutureState T N → StorageKind
  | SmallFutureState.inline _ _ => StorageKind.inline
  | SmallFutureState.heap _ _ => StorageKind.heap

/-- The heap layout stored alongside the pointer, when in heap storage. -/
def SmallFutureState.layoutOf {N : Nat} : SmallFutureState T N → Option Layout
  | SmallFutureState.inline _ _ => none
  | SmallFutureState.heap b _ => some b.layout

/-- The live future currently held by the container's storage. -/
def SmallFutureState.contents {N : Nat} : SmallFutureState T N → ConcreteFuture T
  | SmallFutureState.inline b _ => b
  | SmallFutureState.heap b _ => b.contents

/-- The vtable reference stored in the container. -/
def SmallFutureState.vtableOf {N : Nat} : SmallFutureState T N → VTable T
  | SmallFutureState.inline _ v => v
  | SmallFutureState.heap _ v => v

/-- The enum `SmallFutureSendState<'a, T, N>`: field-for-field the same
shape as `SmallFutureState`, duplicated in the source for the Send
variant. -/
inductive SmallFutureSendState (T : Type) (N : Nat) where
  | inline (buffer : ConcreteFuture T) (vtable : VTable T)
  | heap (buffer : HeapBuffer T) (vtable : VTable T)

/-- The constructor `SmallFutureSendState::new`: textually the same body
as `SmallFutureState::new`; the `Send` bound on `F` is an ownership
capability marker with no operational content in this model. -/
def SmallFutureSendState.new (N : Nat) (future : ConcreteFuture T) :
    SmallFutureSendState T N × List Event :=
  if future.size ≤ N ∧ future.align ≤ alignedBufferAlignOf N then
    (SmallFutureSendState.inline future (VTable.forConcrete T),
      [Event.zeroFilled, Event.movedIntoStorage])
  else
    (SmallFutureSendState.heap
        { contents := future, layout := ⟨future.size, future.align⟩ }
        (VTable.forConcrete T),
      [Event.heapAlloc ⟨future.size, future.align⟩, Event.zeroFilled,
        Event.movedIntoStorage])

/-- The `Future::poll` impl for `SmallFutureSend`: the same match-and-
dispatch as `SmallFuture::poll`. -/
def SmallFutureSendState.poll {N : Nat} :
    SmallFutureSendState T N → SmallFutureSendState T N × Poll T
  | SmallFutureSendState.inline buffer vtable =>
    (SmallFutureSendState.inline (vtable.poll buffer).1 vtable, (vtable.poll buffer).2)
  | SmallFutureSendState.heap buffer vtable =>
    (SmallFutureSendState.heap
        { buffer with contents := (vtable.poll buffer.contents).1 } vtable,
      (vtable.poll buffer.contents).2)

/-- The `Drop` impl for `SmallFutureSend`: the same match-and-dispatch as
`SmallFuture`'s `Drop`, destructor first, then heap deallocation with
the stored layout. -/
def SmallFutureSendState.drop {N : Nat} : SmallFutureSendState T N → List Event
  | SmallFutureSendState.inline buffer vtable => vtable.drop buffer
  | SmallFutureSendState.heap buffer vtable =>
    vtable.drop buffer.contents ++ [Event.heapDealloc buffer.layout]

/-- The storage variant of a Send adaptive container. -/
def SmallFutureSendState.kind {N : Nat} : SmallFutureSendState T N → StorageKind
  | SmallFutureSendState.inline _ _ => StorageKind.inline
  | SmallFutureSendState.heap _ _ => StorageKind.heap

/-- The heap layout stored alongside the pointer, when in heap storage. -/
def SmallFutureSendState.layoutOf {N : Nat} :
    SmallFutureSendState T N → Option Layout
  | SmallFutureSendState.inline _ _ => none
  | SmallFutureSendState.heap b _ => some b.layout

/-- The live future currently held by the container's storage. -/
def SmallFutureSendState.contents {N : Nat} :
    SmallFutureSendState T N → ConcreteFuture T
  | SmallFutureSendState.inline b _ => b
  | SmallFutureSendState.heap b _ => b.contents

/-- The vtable reference stored in the container. -/
def SmallFutureSendState.vtableOf {N : Nat} : SmallFutureSendState T N → VTable T
  | SmallFutureSendState.inline _ v => v
  | SmallFutureSendState.heap _ v => v

/-- The variant-preserving identification of the two structurally
identical state enums, used to compare the Send and non-Send adaptive
containers. -/
def SmallFutureSendState.toLocal {N : Nat} :
    SmallFutureSendState T N → SmallFutureState T N
  | SmallFutureSendState.inline b v => SmallFutureState.inline b v
  | SmallFutureSendState.heap b v => SmallFutureState.heap b v

/-- Polling a `StackFutureImpl` repeatedly (at most `fuel` times) until the
dispatched future reports `Ready`, returning the final container state
and the output if reached. -/
def driveImplSt {N : Nat} : Nat → StackFutureImpl T N → StackFutureImpl T N × Option T
  | 0, c => (c, none)
  | Nat.succ fuel, c =>
    match (StackFutureImpl.poll c).2 with
    | Poll.ready t => ((StackFutureImpl.poll c).1, some t)
    | Poll.pending => driveImplSt fuel (StackFutureImpl.poll c).1

/-- Polling a `LibStackFuture` repeatedly until `Ready`. -/
def driveLibSt {N : Nat} : Nat → LibStackFuture T N → LibStackFuture T N × Option T
  | 0, c => (c, none)
  | Nat.succ fuel, c =>
    match (LibStackFuture.poll c).2 with
    | Poll.ready t => ((LibStackFuture.poll c).1, some t)
    | Poll.pending => driveLibSt fuel (LibStackFuture.poll c).1

/-- Polling a `SmallFutureState` repeatedly until `Ready`. -/
def driveSmallSt {N : Nat} : Nat → SmallFutureState T N → SmallFutureState T N × Option T
  | 0, s => (s, none)
  | Nat.succ fuel, s =>
    match (SmallFutureState.poll s).2 with
    | Poll.ready t => ((SmallFutureState.poll s).1, some t)
    | Poll.pending => driveSmallSt fuel (SmallFutureState.poll s).1

/-- Polling a `SmallFutureSendState` repeatedly until `Ready`. -/
def driveSmallSendSt {N : Nat} :
    Nat → SmallFutureSendState T N → SmallFutureSendState T N × Option T
  | 0, s => (s, none)
  | Nat.succ fuel, s =>
    match (SmallFutureSendState.poll s).2 with
    | Poll.ready t => ((SmallFutureSendState.poll s).1, some t)
    | Poll.pending => driveSmallSendSt fuel (SmallFutureSendState.poll s).1

/-- Constructing a `StackFutureImpl` and, on success, polling the container
to completion: the output the caller observes. -/
def fixedNewDrive (N : Nat) (f : ConcreteFuture T) (fuel : Nat) : Option T :=
  match (StackFutureImpl.new N f).1 with
  | Except.ok c => (driveImplSt fuel c).2
  | Except.error _ => none

/-- Constructing a `lib.rs` `StackFuture` and, on success, polling it to
completion. -/
def libNewDrive (N : Nat) (f : ConcreteFuture T) (fuel : Nat) : Option T :=
  match (LibStackFuture.new N f).1 with
  | Except.ok c => (driveLibSt fuel c).2
  | Except.error _ => none

/-- Constructing a `SmallFuture` and polling it to completion. -/
def smallNewDrive (N : Nat) (f : ConcreteFuture T) (fuel : Nat) : Option T :=
  (driveSmallSt fuel (SmallFutureState.new N f).1).2

/-- Constructing a `SmallFutureSend` and polling it to completion. -/
def smallSendNewDrive (N : Nat) (f : ConcreteFuture T) (fuel : Nat) : Option T :=
  (driveSmallSendSt fuel (SmallFutureSendState.new N f).1).2

/-- The full event trace of one `StackFutureImpl` container lifetime:
construction, then (on success) `fuel` advances followed by the `Drop`
impl; a failed construction emits only the constructor's trace. -/
def implLifecycleEvents (N : Nat) (f : ConcreteFuture T) (fuel : Nat) : List Event :=
  match (StackFutureImpl.new N f).1 with
  | Except.ok c => (StackFutureImpl.new N f).2 ++ (driveImplSt fuel c).1.drop
  | Except.error _ => (StackFutureImpl.new N f).2

/-- The full event trace of one `SmallFuture` container lifetime:
construction, `fuel` advances, then the `Drop` impl. -/
def smallLifecycleEvents (N : Nat) (f : ConcreteFuture T) (fuel : Nat) : List Event :=
  (SmallFutureState.new N f).2
    ++ (driveSmallSt fuel (SmallFutureState.new N f).1).1.drop

/-- The full event trace of one `SmallFutureSend` container lifetime. -/
def smallSendLifecycleEvents (N : Nat) (f : ConcreteFuture T) (fuel : Nat) :
    List Event :=
  (SmallFutureSendState.new N f).2
    ++ (driveSmallSendSt fuel (SmallFutureSendState.new N f).1).1.drop

/-- The kinds of fields occurring in the container structs, for the
`Unpin` auto-trait computation. -/
inductive FieldKind where
  | alignedBuffer
  | vtableRef
  | phantomPinned
  | phantomRcData
  | heapPtrField
  | layoutField
deriving DecidableEq, Repr

/-- Whether a field type is `Unpin`: byte arrays, shared references, raw
pointers, `Layout` and `PhantomData<Rc<()>>` all are; `PhantomPinned`
is the one marker that is not. -/
def FieldKind.isUnpin : FieldKind → Bool
  | FieldKind.phantomPinned => false
  | _ => true

/-- The `Unpin` auto trait for a struct or enum: it holds exactly when it
holds for every field. -/
def structIsUnpin (fields : List FieldKind) : Bool :=
  fields.all FieldKind.isUnpin

/-- Whether `lib.rs`'s `StackFuture { buffer, vtable }` is `Unpin`. -/
def libStackFutureIsUnpin : Bool :=
  structIsUnpin [FieldKind.alignedBuffer, FieldKind.vtableRef]

/-- Whether `StackFutureImpl { buffer, vtable, _pinned: PhantomPinned }`
of `stack_future.rs` is `Unpin`. -/
def stackFutureImplIsUnpin : Bool :=
  structIsUnpin [FieldKind.alignedBuffer, FieldKind.vtableRef, FieldKind.phantomPinned]

/-- Whether `LocalStackFuture(StackFutureImpl, PhantomData<Rc<()>>)` is
`Unpin`. -/
def localStackFutureIsUnpin : Bool :=
  stackFutureImplIsUnpin && structIsUnpin [FieldKind.phantomRcData]

/-- Whether `StackFuture(StackFutureImpl)` of `stack_future.rs` is
`Unpin`. -/
def stackFutureSendIsUnpin : Bool :=
  stackFutureImplIsUnpin

/-- Whether the enum `SmallFutureState` is `Unpin` (fields across both
variants: aligned buffer, vtable reference, heap pointer, layout). -/
def smallFutureStateIsUnpin : Bool :=
  structIsUnpin [FieldKind.alignedBuffer, FieldKind.vtableRef,
    FieldKind.heapPtrField, FieldKind.layoutField]

/-- Whether `SmallFuture(SmallFutureState, PhantomPinned, PhantomData<Rc<()>>)`
is `Unpin`. -/
def smallFutureIsUnpin : Bool :=
  smallFutureStateIsUnpin
    && structIsUnpin [FieldKind.phantomPinned, FieldKind.phantomRcData]

/-- Whether `SmallFutureSend(SmallFutureSendState, PhantomPinned)` is
`Unpin`. -/
def smallFutureSendIsUnpin : Bool :=
  smallFutureStateIsUnpin && structIsUnpin [FieldKind.phantomPinned]

/-- Witness future: 8 bytes, alignment 8, completes on its second poll
with output 42. -/
def futSmall : ConcreteFuture Nat :=
  { size := 8, align := 8, pending := 1, output := 42 }

/-- Witness future violating only the size limit of small buffers: 1024
bytes, alignment 8, immediately ready with 42. -/
def futLarge : ConcreteFuture Nat :=
  { size := 1024, align := 8, pending := 0, output := 42 }

/-- Witness future violating both limits: 1024 bytes, alignment 256. -/
def futBoth : ConcreteFuture Nat :=
  { size := 1024, align := 256, pending := 0, output := 37 }

/-- Witness future violating only the alignment floor: 8 bytes,
alignment 256. -/
def futAligned : ConcreteFuture Nat :=
  { size := 8, align := 256, pending := 2, output := 7 }

/-! ### Helper lemmas -/

theorem alignedBufferAlignOf_eq (N : Nat) : alignedBufferAlignOf N = 8 := by
  simp [alignedBufferAlignOf]

theorem forConcrete_poll : (VTable.forConcrete T).poll = ConcreteFuture.poll := rfl

theorem forConcrete_drop (f : ConcreteFuture T) :
    (VTable.forConcrete T).drop f = [Event.futureDropped] := rfl

theorem implNew_ok {N : Nat} {f : ConcreteFuture T}
    (hs : f.size ≤ N) (ha : f.align ≤ alignedBufferAlignOf N) :
    StackFutureImpl.new N f =
      (Except.ok { buffer := f, vtable := VTable.forConcrete T },
        [Event.zeroFilled, Event.movedIntoStorage]) := by
  unfold StackFutureImpl.new
  rw [if_neg (by omega), if_neg (by omega)]

theorem libNew_ok {N : Nat} {f : ConcreteFuture T}
    (hs : f.size ≤ N) (ha : f.align ≤ alignedBufferAlignOf N) :
    LibStackFuture.new N f =
      (Except.ok { buffer := f, vtable := VTable.forConcrete T },
        [Event.zeroFilled, Event.movedIntoStorage]) := by
  unfold LibStackFuture.new
  rw [if_neg (by omega), if_neg (by omega)]

theorem smallNew_fits {N : Nat} {f : ConcreteFuture T}
    (h : f.size ≤ N ∧ f.align ≤ alignedBufferAlignOf N) :
    SmallFutureState.new N f =
      (SmallFutureState.inline f (VTable.forConcrete T),
        [Event.zeroFilled, Event.movedIntoStorage]) := by
  unfold SmallFutureState.new
  rw [if_pos h]

theorem smallNew_nofits {N : Nat} {f : ConcreteFuture T}
    (h : ¬(f.size ≤ N ∧ f.align ≤ alignedBufferAlignOf N)) :
    SmallFutureState.new N f =
      (SmallFutureState.heap { contents := f, layout := ⟨f.size, f.align⟩ }
          (VTable.forConcrete T),
        [Event.heapAlloc ⟨f.size, f.align⟩, Event.zeroFilled,
          Event.movedIntoStorage]) := by
  unfold SmallFutureState.new
  rw [if_neg h]

theorem smallSendNew_fits {N : Nat} {f : ConcreteFuture T}
    (h : f.size ≤ N ∧ f.align ≤ alignedBufferAlignOf N) :
    SmallFutureSendState.new N f =
      (SmallFutureSendState.inline f (VTable.forConcrete T),
        [Event.zeroFilled, Event.movedIntoStorage]) := by
  unfold SmallFutureSendState.new
  rw [if_pos h]

theorem smallSendNew_nofits {N : Nat} {f : ConcreteFuture T}
    (h : ¬(f.size ≤ N ∧ f.align ≤ alignedBufferAlignOf N)) :
    SmallFutureSendState.new N f =
      (SmallFutureSendState.heap { contents := f, layout := ⟨f.size, f.align⟩ }
          (VTable.forConcrete T),
        [Event.heapAlloc ⟨f.size, f.align⟩, Event.zeroFilled,
          Event.movedIntoStorage]) := by
  unfold SmallFutureSendState.new
  rw [if_neg h]

theorem driveImplSt_forConcrete {N : Nat} (fuel : Nat) (f : ConcreteFuture T) :
    driveImplSt fuel
        ({ buffer := f, vtable := VTable.forConcrete T } : StackFutureImpl T N) =
      ({ buffer := driveFutureSt fuel f, vtable := VTable.forConcrete T },
        driveFuture fuel f) := by
  induction fuel generalizing f with
  | zero => rfl
  | succ fuel ih =>
    cases hp : (ConcreteFuture.poll f).2 with
    | ready t =>
      simp [driveImplSt, StackFutureImpl.poll, forConcrete_poll, hp,
        driveFutureSt, driveFuture]
    | pending =>
      simp [driveImplSt, StackFutureImpl.poll, forConcrete_poll, hp,
        driveFutureSt, driveFuture, ih]

theorem driveLibSt_forConcrete {N : Nat} (fuel : Nat) (f : ConcreteFuture T) :
    driveLibSt fuel
        ({ buffer := f, vtable := VTable.forConcrete T } : LibStackFuture T N) =
      ({ buffer := driveFutureSt fuel f, vtable := VTable.forConcrete T },
        driveFuture fuel f) := by
  induction fuel generalizing f with
  | zero => rfl
  | succ fuel ih =>
    cases hp : (ConcreteFuture.poll f).2 with
    | ready t =>
      simp [driveLibSt, LibStackFuture.poll, forConcrete_poll, hp,
        driveFutureSt, driveFuture]
    | pending =>
      simp [driveLibSt, LibStackFuture.poll, forConcrete_poll, hp,
        driveFutureSt, driveFuture, ih]

theorem driveSmallSt_inline {N : Nat} (fuel : Nat) (f : ConcreteFuture T) :
    driveSmallSt fuel
        (SmallFutureState.inline f (VTable.forConcrete T) : SmallFutureState T N) =
      (SmallFutureState.inline (driveFutureSt fuel f) (VTable.forConcrete T),
        driveFuture fuel f) := by
  induction fuel generalizing f with
  | zero => rfl
  | succ fuel ih =>
    cases hp : (ConcreteFuture.poll f).2 with
    | ready t =>
      simp [driveSmallSt, SmallFutureState.poll, forConcrete_poll, hp,
        driveFutureSt, driveFuture]
    | pending =>
      simp [driveSmallSt, SmallFutureState.poll, forConcrete_poll, hp,
        driveFutureSt, driveFuture, ih]

theorem driveSmallSt_heap {N : Nat} (fuel : Nat) (f : ConcreteFuture T) (l : Layout) :
    driveSmallSt fuel
        (SmallFutureState.heap { contents := f, layout := l }
          (VTable.forConcrete T) : SmallFutureState T N) =
      (SmallFutureState.heap { contents := driveFutureSt fuel f, layout := l }
          (VTable.forConcrete T),
        driveFuture fuel f) := by
  induction fuel generalizing f with
  | zero => rfl
  | succ fuel ih =>
    cases hp : (ConcreteFuture.poll f).2 with
    | ready t =>
      simp [driveSmallSt, SmallFutureState.poll, forConcrete_poll, hp,
        driveFutureSt, driveFuture]
    | pending =>
      simp [driveSmallSt, SmallFutureState.poll, forConcrete_poll, hp,
        driveFutureSt, driveFuture, ih]

theorem driveSmallSendSt_inline {N : Nat} (fuel : Nat) (f : ConcreteFuture T) :
    driveSmallSendSt fuel
        (SmallFutureSendState.inline f (VTable.forConcrete T) :
          SmallFutureSendState T N) =
      (SmallFutureSendState.inline (driveFutureSt fuel f) (VTable.forConcrete T),
        driveFuture fuel f) := by
  induction fuel generalizing f with
  | zero => rfl
  | succ fuel ih =>
    cases hp : (ConcreteFuture.poll f).2 with
    | ready t =>
      simp [driveSmallSendSt, SmallFutureSendState.poll, forConcrete_poll, hp,
        driveFutureSt, driveFuture]
    | pending =>
      simp [driveSmallSendSt, SmallFutureSendState.poll, forConcrete_poll, hp,
        driveFutureSt, driveFuture, ih]

theorem driveSmallSendSt_heap {N : Nat} (fuel : Nat) (f : ConcreteFuture T)
    (l : Layout) :
    driveSmallSendSt fuel
        (SmallFutureSendState.heap { contents := f, layout := l }
          (VTable.forConcrete T) : SmallFutureSendState T N) =
      (SmallFutureSendState.heap { contents := driveFutureSt fuel f, layout := l }
          (VTable.forConcrete T),
        driveFuture fuel f) := by
  induction fuel generalizing f with
  | zero => rfl
  | succ fuel ih =>
    cases hp : (ConcreteFuture.poll f).2 with
    | ready t =>
      simp [driveSmallSendSt, SmallFutureSendState.poll, forConcrete_poll, hp,
        driveFutureSt, driveFuture]
    | pending =>
      simp [driveSmallSendSt, SmallFutureSendState.poll, forConcrete_poll, hp,
        driveFutureSt, driveFuture, ih]

theorem implNew_size_err {N : Nat} {f : ConcreteFuture T} (h : f.size > N) :
    StackFutureImpl.new N f =
      (Except.error (CreateError.sizeTooLarge f.size N), [Event.futureDropped]) := by
  unfold StackFutureImpl.new
  rw [if_pos h]

theorem implNew_align_err {N : Nat} {f : ConcreteFuture T}
    (hs : f.size ≤ N) (ha : f.align > alignedBufferAlignOf N) :
    StackFutureImpl.new N f =
      (Except.error (CreateError.alignmentMismatch f.align (alignedBufferAlignOf N)),
        [Event.futureDropped]) := by
  unfold StackFutureImpl.new
  rw [if_neg (by omega), if_pos ha]

theorem libNew_size_err {N : Nat} {f : ConcreteFuture T} (h : f.size > N) :
    LibStackFuture.new N f =
      (Except.error (CreateError.sizeTooLarge f.size N), [Event.futureDropped]) := by
  unfold LibStackFuture.new
  rw [if_pos h]

theorem libNew_align_err {N : Nat} {f : ConcreteFuture T}
    (hs : f.size ≤ N) (ha : f.align > alignedBufferAlignOf N) :
    LibStackFuture.new N f =
      (Except.error (CreateError.alignmentMismatch f.align (alignedBufferAlignOf N)),
        [Event.futureDropped]) := by
  unfold LibStackFuture.new
  rw [if_neg (by omega), if_pos ha]

theorem toLocal_new (N : Nat) (f : ConcreteFuture T) :
    (SmallFutureSendState.new N f).1.toLocal = (SmallFutureState.new N f).1 ∧
    (SmallFutureSendState.new N f).2 = (SmallFutureState.new N f).2 := by
  by_cases h : f.size ≤ N ∧ f.align ≤ alignedBufferAlignOf N
  · rw [smallNew_fits h, smallSendNew_fits h]
    exact ⟨rfl, rfl⟩
  · rw [smallNew_nofits h, smallSendNew_nofits h]
    exact ⟨rfl, rfl⟩

theorem toLocal_poll {N : Nat} (s : SmallFutureSendState T N) :
    (SmallFutureSendState.poll s).1.toLocal =
      (SmallFutureState.poll s.toLocal).1 ∧
    (SmallFutureSendState.poll s).2 = (SmallFutureState.poll s.toLocal).2 := by
  cases s <;> exact ⟨rfl, rfl⟩

theorem toLocal_drop {N : Nat} (s : SmallFutureSendState T N) :
    SmallFutureSendState.drop s = SmallFutureState.drop s.toLocal := by
  cases s <;> rfl

theorem toLocal_kind {N : Nat} (s : SmallFutureSendState T N) :
    SmallFutureSendState.kind s = SmallFutureState.kind s.toLocal := by
  cases s <;> rfl

/-! ### Claim theorems -/

/-- C1: For every concrete future type `F` with `size_of(F) ≤ N` and
`align_of(F) ≤ 8` (the buffer's alignment floor), fixed-capacity
construction (`StackFutureImpl::new`, `StackFuture::new`,
`LocalStackFuture::new`, and the `lib.rs` revision) succeeds, and polling
the resulting container to completion yields exactly the same output
value as polling `F` directly. -/
theorem fixed_fit_construction_succeeds_and_refines (N : Nat)
    (f : ConcreteFuture T) (fuel : Nat)
    (hs : f.size ≤ N) (ha : f.align ≤ alignedBufferAlignOf N) :
    isOkC (StackFutureImpl.new N f).1 = true ∧
    isOkC (StackFuture.new N f).1 = true ∧
    isOkC (LocalStackFuture.new N f).1 = true ∧
    isOkC (LibStackFuture.new N f).1 = true ∧
    fixedNewDrive N f fuel = driveFuture fuel f ∧
    libNewDrive N f fuel = driveFuture fuel f := by
  refine ⟨?_, ?_, ?_, ?_, ?_, ?_⟩
  · rw [implNew_ok hs ha]
    rfl
  · simp [StackFuture.new, implNew_ok hs ha, isOkC, Except.map]
  · simp [LocalStackFuture.new, implNew_ok hs ha, isOkC, Except.map]
  · rw [libNew_ok hs ha]
    rfl
  · simp [fixedNewDrive, implNew_ok hs ha, driveImplSt_forConcrete]
  · simp [libNewDrive, libNew_ok hs ha, driveLibSt_forConcrete]

/-- Witness for C1 at a concrete input: an 8-byte, 8-aligned future in a
32-byte buffer. -/
theorem fixed_fit_construction_succeeds_and_refines_witness :
    isOkC (StackFutureImpl.new 32 futSmall).1 = true ∧
    isOkC (StackFuture.new 32 futSmall).1 = true ∧
    isOkC (LocalStackFuture.new 32 futSmall).1 = true ∧
    isOkC (LibStackFuture.new 32 futSmall).1 = true ∧
    fixedNewDrive 32 futSmall 2 = driveFuture 2 futSmall ∧
    libNewDrive 32 futSmall 2 = driveFuture 2 futSmall :=
  fixed_fit_construction_succeeds_and_refines 32 futSmall 2 (by decide) (by decide)

/-- C2: Adaptive construction (`SmallFuture::new` / `SmallFutureSend::new`)
never returns an error: for every concrete future the constructed
container polls to exactly the future's own output (shown for the
arbitrary future `g`), and a future failing the fixed-capacity fit test
is stored in heap fallback storage. -/
theorem adaptive_construction_total_and_fallback (N : Nat)
    (f g : ConcreteFuture T) (fuel : Nat)
    (hfit : ¬(f.size ≤ N ∧ f.align ≤ alignedBufferAlignOf N)) :
    (SmallFutureState.new N f).1.kind = StorageKind.heap ∧
    (SmallFutureSendState.new N f).1.kind = StorageKind.heap ∧
    smallNewDrive N f fuel = driveFuture fuel f ∧
    smallSendNewDrive N f fuel = driveFuture fuel f ∧
    smallNewDrive N g fuel = driveFuture fuel g ∧
    smallSendNewDrive N g fuel = driveFuture fuel g := by
  have hdrive : ∀ h : ConcreteFuture T,
      smallNewDrive N h fuel = driveFuture fuel h ∧
      smallSendNewDrive N h fuel = driveFuture fuel h := by
    intro h
    by_cases hh : h.size ≤ N ∧ h.align ≤ alignedBufferAlignOf N
    · constructor
      · simp [smallNewDrive, smallNew_fits hh, driveSmallSt_inline]
      · simp [smallSendNewDrive, smallSendNew_fits hh, driveSmallSendSt_inline]
    · constructor
      · simp [smallNewDrive, smallNew_nofits hh, driveSmallSt_heap]
      · simp [smallSendNewDrive, smallSendNew_nofits hh, driveSmallSendSt_heap]
  refine ⟨?_, ?_, (hdrive f).1, (hdrive f).2, (hdrive g).1, (hdrive g).2⟩
  · rw [smallNew_nofits hfit]
    rfl
  · rw [smallSendNew_nofits hfit]
    rfl

/-- Witness for C2 at a concrete input: a 1024-byte future in a 16-byte
adaptive container goes to the heap and still produces its output; a
small future is also polled correctly. -/
theorem adaptive_construction_total_and_fallback_witness :
    (SmallFutureState.new 16 futLarge).1.kind = StorageKind.heap ∧
    (SmallFutureSendState.new 16 futLarge).1.kind = StorageKind.heap ∧
    smallNewDrive 16 futLarge 2 = driveFuture 2 futLarge ∧
    smallSendNewDrive 16 futLarge 2 = driveFuture 2 futLarge ∧
    smallNewDrive 16 futSmall 2 = driveFuture 2 futSmall ∧
    smallSendNewDrive 16 futSmall 2 = driveFuture 2 futSmall :=
  adaptive_construction_total_and_fallback 16 futLarge futSmall 2 (by decide)

/-- C3: For every container of either family, the dispatch table's destroy
operation runs the stored task's destructor exactly once per container
lifetime — whether the container is released without ever advancing
(`fuel = 0`) or advanced to completion first — and, in the heap case,
the destructor runs on the fallback storage strictly before that storage
is deallocated. -/
theorem destructor_runs_exactly_once (N : Nat) (f : ConcreteFuture T)
    (fuel : Nat) :
    (implLifecycleEvents N f fuel).count Event.futureDropped = 1 ∧
    (smallLifecycleEvents N f fuel).count Event.futureDropped = 1 ∧
    (smallSendLifecycleEvents N f fuel).count Event.futureDropped = 1 ∧
    (driveSmallSt fuel (SmallFutureState.new N f).1).1.drop =
      (if f.size ≤ N ∧ f.align ≤ alignedBufferAlignOf N then
        [Event.futureDropped]
      else
        [Event.futureDropped, Event.heapDealloc ⟨f.size, f.align⟩]) := by
  by_cases hfit : f.size ≤ N ∧ f.align ≤ alignedBufferAlignOf N
  · refine ⟨?_, ?_, ?_, ?_⟩
    · rw [implLifecycleEvents, implNew_ok hfit.1 hfit.2]
      simp [driveImplSt_forConcrete, StackFutureImpl.drop, forConcrete_drop]
    · rw [smallLifecycleEvents, smallNew_fits hfit]
      simp [driveSmallSt_inline, SmallFutureState.drop, forConcrete_drop]
    · rw [smallSendLifecycleEvents, smallSendNew_fits hfit]
      simp [driveSmallSendSt_inline, SmallFutureSendState.drop, forConcrete_drop]
    · rw [smallNew_fits hfit, if_pos hfit]
      simp [driveSmallSt_inline, SmallFutureState.drop, forConcrete_drop]
  · have hcases : f.size > N ∨ (f.size ≤ N ∧ f.align > alignedBufferAlignOf N) := by
      omega
    refine ⟨?_, ?_, ?_, ?_⟩
    · rcases hcases with hs | ⟨hs, ha⟩
      · rw [implLifecycleEvents, implNew_size_err hs]
        rfl
      · rw [implLifecycleEvents, implNew_align_err hs ha]
        rfl
    · rw [smallLifecycleEvents, smallNew_nofits hfit]
      simp [driveSmallSt_heap, SmallFutureState.drop, forConcrete_drop]
    · rw [smallSendLifecycleEvents, smallSendNew_nofits hfit]
      simp [driveSmallSendSt_heap, SmallFutureSendState.drop, forConcrete_drop]
    · rw [smallNew_nofits hfit, if_neg hfit]
      simp [driveSmallSt_heap, SmallFutureState.drop, forConcrete_drop]

/-- C4 counterexample: at the concrete input of a 1024-byte future and a
16-byte buffer, fixed-capacity construction does fail, but the rejected
future's destructor count in the construction trace is not zero — Rust
drops the consumed `future` argument when `new` returns the error — so
the claim's "no destructor of F runs as a result of the failed
construction" is false. -/
theorem fixed_size_rejection_no_drop_cex :
    errOf (StackFutureImpl.new 16 futLarge).1 =
      some (CreateError.sizeTooLarge 1024 16) ∧
    (StackFutureImpl.new 16 futLarge).2.count Event.futureDropped ≠ 0 := by
  constructor
  · rfl
  · decide

/-- C4 (amended): for every concrete future type `F` with
`size_of(F) > N`, fixed-capacity construction fails with a size error
carrying exactly the required size and the capacity, the future is never
moved into the buffer (no move event in the trace), and the rejected
argument is dropped normally — its destructor runs exactly once on the
intact value, never on buffer contents, so no partial task is left
alive. -/
theorem fixed_size_rejection_amended (N : Nat) (f : ConcreteFuture T)
    (h : f.size > N) :
    errOf (StackFutureImpl.new N f).1 = some (CreateError.sizeTooLarge f.size N) ∧
    errOf (LibStackFuture.new N f).1 = some (CreateError.sizeTooLarge f.size N) ∧
    (StackFutureImpl.new N f).2.count Event.movedIntoStorage = 0 ∧
    (StackFutureImpl.new N f).2.count Event.futureDropped = 1 ∧
    (LibStackFuture.new N f).2 = (StackFutureImpl.new N f).2 := by
  rw [implNew_size_err h, libNew_size_err h]
  refine ⟨rfl, rfl, ?_, ?_, rfl⟩ <;> rfl

/-- Witness for the amended C4 at a concrete input. -/
theorem fixed_size_rejection_amended_witness :
    errOf (StackFutureImpl.new 16 futBoth).1 =
      some (CreateError.sizeTooLarge 1024 16) ∧
    errOf (LibStackFuture.new 16 futBoth).1 =
      some (CreateError.sizeTooLarge 1024 16) ∧
    (StackFutureImpl.new 16 futBoth).2.count Event.movedIntoStorage = 0 ∧
    (StackFutureImpl.new 16 futBoth).2.count Event.futureDropped = 1 ∧
    (LibStackFuture.new 16 futBoth).2 = (StackFutureImpl.new 16 futBoth).2 :=
  fixed_size_rejection_amended 16 futBoth (by decide)

/-- C5 counterexample: at the concrete input of a future violating both
limits (1024 bytes, alignment 256) against a 16-byte buffer, the
fixed-capacity constructor reports the size violation, not the alignment
violation — so the claim that the alignment check is performed strictly
before the size check (and that a doubly violating future is reported as
an alignment violation) is false on the code, which checks size
first. -/
theorem fixed_both_violations_report_size_cex :
    errOf (StackFutureImpl.new 16 futBoth).1 =
      some (CreateError.sizeTooLarge 1024 16) ∧
    errOf (StackFutureImpl.new 16 futBoth).1 ≠
      some (CreateError.alignmentMismatch 256 8) ∧
    errOf (LibStackFuture.new 16 futBoth).1 ≠
      some (CreateError.alignmentMismatch 256 8) := by
  refine ⟨rfl, ?_, ?_⟩ <;> decide

/-- C5 (amended): for every concrete future type `F` with
`align_of(F) > 8` (the buffer's alignment floor), fixed-capacity
construction fails; the size check is performed strictly before the
alignment check, so the reported error is the alignment violation —
carrying exactly the required alignment and the floor — unless `F` also
violates the size limit, in which case the size violation is reported
instead. -/
theorem fixed_alignment_rejection_amended (N : Nat) (f : ConcreteFuture T)
    (ha : f.align > alignedBufferAlignOf N) :
    errOf (StackFutureImpl.new N f).1 =
      some (if f.size > N then CreateError.sizeTooLarge f.size N
        else CreateError.alignmentMismatch f.align (alignedBufferAlignOf N)) ∧
    errOf (LibStackFuture.new N f).1 =
      some (if f.size > N then CreateError.sizeTooLarge f.size N
        else CreateError.alignmentMismatch f.align (alignedBufferAlignOf N)) := by
  by_cases hs : f.size > N
  · rw [implNew_size_err hs, libNew_size_err hs, if_pos hs]
    exact ⟨rfl, rfl⟩
  · rw [implNew_align_err (by omega) ha, libNew_align_err (by omega) ha, if_neg hs]
    exact ⟨rfl, rfl⟩

/-- Witness for the amended C5 at a concrete input: an 8-byte future with
alignment 256 against a 16-byte buffer is rejected with the alignment
error carrying 256 and 8. -/
theorem fixed_alignment_rejection_amended_witness :
    errOf (StackFutureImpl.new 16 futAligned).1 =
      some (if futAligned.size > 16 then CreateError.sizeTooLarge futAligned.size 16
        else CreateError.alignmentMismatch futAligned.align (alignedBufferAlignOf 16)) ∧
    errOf (LibStackFuture.new 16 futAligned).1 =
      some (if futAligned.size > 16 then CreateError.sizeTooLarge futAligned.size 16
        else CreateError.alignmentMismatch futAligned.align (alignedBufferAlignOf 16)) :=
  fixed_alignment_rejection_amended 16 futAligned (by decide)

/-- C6 counterexample: the `lib.rs` revision's container type has no
`PhantomPinned` field, so the `Unpin` auto trait holds for it (its
`poll` even obtains `&mut self` through `Pin::get_mut`, which requires
`Unpin`) — refuting the claim that every container type is
non-relocatable. -/
theorem lib_container_unpin_cex :
    libStackFutureIsUnpin = true := by
  decide

/-- C6 (amended): a stored task's bytes are moved exactly once — during
construction — in every container lifetime of either family: every
adaptive lifetime (inline or heap fallback) has exactly one move event,
and a fixed-capacity lifetime has exactly one move event when
construction succeeds and none when it fails (nothing was moved); no
poll or release ever adds a move.  The container types of
`stack_future.rs` and `small_future.rs` are all `!Unpin` through their
`PhantomPinned` fields; the superseded `lib.rs` container is the one
exception, being `Unpin`. -/
theorem containers_immovable_and_moved_once_amended (N : Nat)
    (f : ConcreteFuture T) (fuel : Nat) :
    stackFutureImplIsUnpin = false ∧
    localStackFutureIsUnpin = false ∧
    stackFutureSendIsUnpin = false ∧
    smallFutureIsUnpin = false ∧
    smallFutureSendIsUnpin = false ∧
    libStackFutureIsUnpin = true ∧
    (implLifecycleEvents N f fuel).count Event.movedIntoStorage =
      (if f.size ≤ N ∧ f.align ≤ alignedBufferAlignOf N then 1 else 0) ∧
    (smallLifecycleEvents N f fuel).count Event.movedIntoStorage = 1 ∧
    (smallSendLifecycleEvents N f fuel).count Event.movedIntoStorage = 1 := by
  by_cases hfit : f.size ≤ N ∧ f.align ≤ alignedBufferAlignOf N
  · refine ⟨by decide, by decide, by decide, by decide, by decide, by decide,
      ?_, ?_, ?_⟩
    · rw [implLifecycleEvents, implNew_ok hfit.1 hfit.2, if_pos hfit]
      simp [driveImplSt_forConcrete, StackFutureImpl.drop, forConcrete_drop]
    · rw [smallLifecycleEvents, smallNew_fits hfit]
      simp [driveSmallSt_inline, SmallFutureState.drop, forConcrete_drop]
    · rw [smallSendLifecycleEvents, smallSendNew_fits hfit]
      simp [driveSmallSendSt_inline, SmallFutureSendState.drop, forConcrete_drop]
  · have hcases : f.size > N ∨ (f.size ≤ N ∧ f.align > alignedBufferAlignOf N) := by
      omega
    refine ⟨by decide, by decide, by decide, by decide, by decide, by decide,
      ?_, ?_, ?_⟩
    · rw [if_neg hfit]
      rcases hcases with hs | ⟨hs, ha⟩
      · rw [implLifecycleEvents, implNew_size_err hs]
        rfl
      · rw [implLifecycleEvents, implNew_align_err hs ha]
        rfl
    · rw [smallLifecycleEvents, smallNew_nofits hfit]
      simp [driveSmallSt_heap, SmallFutureState.drop, forConcrete_drop]
    · rw [smallSendLifecycleEvents, smallSendNew_nofits hfit]
      simp [driveSmallSendSt_heap, SmallFutureSendState.drop, forConcrete_drop]

/-- C7: For every concrete future type `F` that takes the fallback path,
the heap slot is created with exactly `size_of(F)` bytes and
`align_of(F)` alignment (not the inline buffer's fixed size `N`),
zero-filled before the task is written into it (the trace order is
allocate, zero-fill, move-in), and on release is deallocated using
exactly the layout stored alongside the pointer — the same layout it was
created with. -/
theorem heap_fallback_exact_layout (N : Nat) (f : ConcreteFuture T)
    (hfit : ¬(f.size ≤ N ∧ f.align ≤ alignedBufferAlignOf N))
    (hpow : isPowTwo f.align = true)
    (hbound : f.size ≤ isizeMax - (f.align - 1)) :
    Layout.fromSizeAlign f.size f.align = some ⟨f.size, f.align⟩ ∧
    (SmallFutureState.new N f).1.layoutOf = some ⟨f.size, f.align⟩ ∧
    (SmallFutureSendState.new N f).1.layoutOf = some ⟨f.size, f.align⟩ ∧
    (SmallFutureState.new N f).2 =
      [Event.heapAlloc ⟨f.size, f.align⟩, Event.zeroFilled,
        Event.movedIntoStorage] ∧
    (SmallFutureState.new N f).1.drop =
      [Event.futureDropped, Event.heapDealloc ⟨f.size, f.align⟩] ∧
    heapBufferNewModel f.size f.align AllocResult.validBlock =
      HeapNewOutcome.ok ⟨f.size, f.align⟩ true := by
  have hL : Layout.fromSizeAlign f.size f.align = some ⟨f.size, f.align⟩ := by
    unfold Layout.fromSizeAlign
    rw [if_pos ⟨hpow, hbound⟩]
  refine ⟨hL, ?_, ?_, ?_, ?_, ?_⟩
  · rw [smallNew_nofits hfit]
    rfl
  · rw [smallSendNew_nofits hfit]
    rfl
  · rw [smallNew_nofits hfit]
  · rw [smallNew_nofits hfit]
    rfl
  · unfold heapBufferNewModel
    rw [hL]
    rfl

/-- Witness for C7 at a concrete input: a 1024-byte, 8-aligned future
against a 16-byte adaptive container. -/
theorem heap_fallback_exact_layout_witness :
    Layout.fromSizeAlign futLarge.size futLarge.align =
      some ⟨futLarge.size, futLarge.align⟩ ∧
    (SmallFutureState.new 16 futLarge).1.layoutOf =
      some ⟨futLarge.size, futLarge.align⟩ ∧
    (SmallFutureSendState.new 16 futLarge).1.layoutOf =
      some ⟨futLarge.size, futLarge.align⟩ ∧
    (SmallFutureState.new 16 futLarge).2 =
      [Event.heapAlloc ⟨futLarge.size, futLarge.align⟩, Event.zeroFilled,
        Event.movedIntoStorage] ∧
    (SmallFutureState.new 16 futLarge).1.drop =
      [Event.futureDropped, Event.heapDealloc ⟨futLarge.size, futLarge.align⟩] ∧
    heapBufferNewModel futLarge.size futLarge.align AllocResult.validBlock =
      HeapNewOutcome.ok ⟨futLarge.size, futLarge.align⟩ true :=
  heap_fallback_exact_layout 16 futLarge (by decide) (by decide) (by decide)

/-- C8: If the underlying allocator cannot satisfy the fallback slot's
request (returns a null pointer), `HeapBuffer::new` panics with the
message of the source — a fatal, non-returning outcome, not a
recoverable error value — and no buffer is ever produced, whatever size
and alignment were requested. -/
theorem heap_alloc_failure_fatal :
    (∀ lay : Layout,
      heapAllocStep lay AllocResult.nullPtr =
        HeapNewOutcome.fatalPanic ("Heap allocation failed")) ∧
    (∀ (size align : Nat) (lay : Layout) (z : Bool),
      heapBufferNewModel size align AllocResult.nullPtr ≠
        HeapNewOutcome.ok lay z) := by
  constructor
  · intro lay
    rfl
  · intro size align lay z h
    unfold heapBufferNewModel at h
    cases hL : Layout.fromSizeAlign size align <;> rw [hL] at h <;>
      simp [heapAllocStep] at h

/-- C9: For every adaptive container of either ownership variant, the
storage kind chosen at construction never changes: a poll preserves the
storage variant of any state, an arbitrary number of polls after
construction leaves the constructed variant in place, and the final
release deallocates heap storage exactly when the construction-time
variant was heap. -/
theorem adaptive_storage_kind_stable (N : Nat) :
    (∀ s : SmallFutureState T N, (SmallFutureState.poll s).1.kind = s.kind) ∧
    (∀ s : SmallFutureSendState T N,
      (SmallFutureSendState.poll s).1.kind = s.kind) ∧
    (∀ (f : ConcreteFuture T) (fuel : Nat),
      (driveSmallSt fuel (SmallFutureState.new N f).1).1.kind =
        (SmallFutureState.new N f).1.kind ∧
      (driveSmallSendSt fuel (SmallFutureSendState.new N f).1).1.kind =
        (SmallFutureSendState.new N f).1.kind ∧
      (driveSmallSt fuel (SmallFutureState.new N f).1).1.drop.count
          (Event.heapDealloc ⟨f.size, f.align⟩) =
        (if (SmallFutureState.new N f).1.kind = StorageKind.heap then 1
          else 0)) := by
  refine ⟨fun s => by cases s <;> rfl, fun s => by cases s <;> rfl, ?_⟩
  intro f fuel
  by_cases hfit : f.size ≤ N ∧ f.align ≤ alignedBufferAlignOf N
  · rw [smallNew_fits hfit, smallSendNew_fits hfit]
    refine ⟨?_, ?_, ?_⟩
    · simp [driveSmallSt_inline, SmallFutureState.kind]
    · simp [driveSmallSendSt_inline, SmallFutureSendState.kind]
    · simp [driveSmallSt_inline, SmallFutureState.kind, SmallFutureState.drop,
        forConcrete_drop]
  · rw [smallNew_nofits hfit, smallSendNew_nofits hfit]
    refine ⟨?_, ?_, ?_⟩
    · simp [driveSmallSt_heap, SmallFutureState.kind]
    · simp [driveSmallSendSt_heap, SmallFutureSendState.kind]
    · simp [driveSmallSt_heap, SmallFutureState.kind, SmallFutureState.drop,
        forConcrete_drop]

/-- C10: The local adaptive container and the Send adaptive container are
behaviorally identical: under the variant-preserving identification of
their state enums, their constructors agree (same storage decision,
same trace), and their poll and drop operations perform the same
dispatch on the same storage; the Send bound is only an ownership
capability marker. -/
theorem send_variant_behavior_equal (N : Nat) :
    (∀ f : ConcreteFuture T,
      (SmallFutureSendState.new N f).1.toLocal = (SmallFutureState.new N f).1 ∧
      (SmallFutureSendState.new N f).2 = (SmallFutureState.new N f).2 ∧
      (SmallFutureSendState.new N f).1.kind =
        (SmallFutureState.new N f).1.kind) ∧
    (∀ s : SmallFutureSendState T N,
      (SmallFutureSendState.poll s).1.toLocal =
        (SmallFutureState.poll s.toLocal).1 ∧
      (SmallFutureSendState.poll s).2 = (SmallFutureState.poll s.toLocal).2 ∧
      SmallFutureSendState.drop s = SmallFutureState.drop s.toLocal ∧
      SmallFutureSendState.kind s = SmallFutureState.kind s.toLocal) := by
  constructor
  · intro f
    obtain ⟨h1, h2⟩ := toLocal_new N f
    refine ⟨h1, h2, ?_⟩
    rw [← h1]
    exact toLocal_kind _
  · intro s
    exact ⟨(toLocal_poll s).1, (toLocal_poll s).2, toLocal_drop s, toLocal_kind s⟩
